import Mathlib

/-!
Shallow embedding of the `tyl-99/ct-web` trading-dashboard frontend, used to
verify the natural-language specification against the TypeScript/JavaScript
source.  Each definition is translated from a concrete function of the
repository; the source file and lines are cited next to each definition.

Conventions of the embedding:
* JavaScript numbers that flow through the arithmetic under scrutiny are
  modelled as `Option ℚ`: `some q` is an ordinary finite number, `none`
  stands for a missing field (`undefined`) or a non-finite result (`NaN`).
  For every operation used by the embedded code (`x || 0`, `+`, `/`, `*`,
  truthiness tests) `undefined` and `NaN` behave identically, so a single
  `none` is a faithful common model.
* Fallible platform calls (`fetch`, `child_process.exec`,
  `registration.getNotifications`, `JSON.parse` of a request body, Firestore
  reads) are inputs of type `Except ε α`: `.error` is the promise rejecting
  or the call throwing, `.ok` its resolved value.
* JavaScript objects indexed by string keys are modelled either as
  association lists `List (String × β)` (when iteration order matters) or as
  functions `String → Option β` (when only lookup matters).
-/

namespace Js

/-- JS `x || d` on a possibly-missing string: `undefined` and `""` are falsy. -/
def orStr (x : Option String) (d : String) : String :=
  match x with
  | some s => if s = "" then d else s
  | none => d

/-- JS truthiness of a possibly-missing string (`undefined` and `""` falsy). -/
def truthyStr (x : Option String) : Bool :=
  match x with
  | some s => s ≠ ""
  | none => false

/-- JS `x || 0` on a possibly-missing number (`undefined`, `NaN` and `0` all map to `0`). -/
def orZero (x : Option ℚ) : ℚ := x.getD 0

/-- JS truthiness of a possibly-missing number (`undefined`, `NaN` and `0` falsy). -/
def truthyNum (x : Option ℚ) : Bool :=
  match x with
  | some q => q ≠ 0
  | none => false

/-- JS `x + c` where `x` may be `undefined`/`NaN` (then the sum is `NaN`). -/
def add (x : Option ℚ) (c : ℚ) : Option ℚ := x.map (· + c)

/-- JS division `x / y`; any non-finite operand or a zero divisor gives a
non-finite result (`NaN`/`Infinity`), modelled as `none`. -/
def div (x y : Option ℚ) : Option ℚ :=
  match x, y with
  | some a, some b => if b = 0 then none else some (a / b)
  | _, _ => none

/-- JS `x * c` where `x` may be non-finite. -/
def mul (x : Option ℚ) (c : ℚ) : Option ℚ := x.map (· * c)

/-- ASCII whitespace stripped by `String.prototype.trim()` (the embedding
restricts itself to the ASCII whitespace class). -/
def whitespace (c : Char) : Bool :=
  c = ' ' ∨ c = '\t' ∨ c = '\n' ∨ c = '\r' ∨ c = '\x0c' ∨ c = '\x0b'

/-- `s.trim()`: strip leading and trailing whitespace. -/
def trim (s : String) : String :=
  ⟨((s.data.dropWhile whitespace).reverse.dropWhile whitespace).reverse⟩

end Js

namespace JsObj

/-- `target[k] = v` on a JS object modelled as an association list:
overwrite in place when the key exists, append otherwise. -/
def set {β : Type} (m : List (String × β)) (k : String) (v : β) : List (String × β) :=
  if (m.lookup k).isSome then
    m.map (fun p => if p.1 = k then (k, v) else p)
  else
    m ++ [(k, v)]

end JsObj

namespace DataRoute

/-!
`frontend/app/api/data/route.ts` — the per-pair summary record and
`mergePairSummary` (lines 12-31, identical in both revisions of the file),
plus the aggregated `overall_win_rate` formula (lines 295-298).
-/

/-- `type PairSummary` (route.ts lines 3-10).  Every field is a JSON number
that may be absent on a particular document, hence `Option ℚ`. -/
structure PairSummary where
  total_trades : Option ℚ
  wins : Option ℚ
  losses : Option ℚ
  total_pnl : Option ℚ
  win_rate : Option ℚ
  avg_pnl : Option ℚ
  deriving Repr, DecidableEq

/-- The `else` branch of `mergePairSummary` (route.ts lines 17-28): mutates
`existing` by adding the incoming counters (`|| 0` on the incoming side) and
recomputes `win_rate` and `avg_pnl` from the updated totals, guarded by the
truthiness of `total_trades`. -/
def mergeStats (existing stats : PairSummary) : PairSummary :=
  let tt := Js.add existing.total_trades (Js.orZero stats.total_trades)
  let w := Js.add existing.wins (Js.orZero stats.wins)
  let l := Js.add existing.losses (Js.orZero stats.losses)
  let p := Js.add existing.total_pnl (Js.orZero stats.total_pnl)
  { total_trades := tt
    wins := w
    losses := l
    total_pnl := p
    win_rate := if Js.truthyNum tt then Js.mul (Js.div w tt) 100 else some 0
    avg_pnl := if Js.truthyNum tt then Js.div p tt else some 0 }

/-- `mergePairSummary(target, incoming)` (route.ts lines 12-31).  `incoming`
is `Record<string, PairSummary> | undefined`; `if (!incoming) return` leaves
`target` unchanged.  `Object.entries(incoming)` is the association list in
insertion order; `!target[pair]` is absence (a present record object is
always truthy). -/
def mergePairSummary (target : List (String × PairSummary))
    (incoming : Option (List (String × PairSummary))) :
    List (String × PairSummary) :=
  match incoming with
  | none => target
  | some inc =>
    inc.foldl
      (fun tgt kv =>
        match tgt.lookup kv.1 with
        | none => JsObj.set tgt kv.1 kv.2
        | some existing => JsObj.set tgt kv.1 (mergeStats existing kv.2))
      target

/-- The aggregated `overall_win_rate` assignment (route.ts lines 296-298):
`total_trades ? (total_wins / total_trades) * 100 : 0` on the plain (always
finite) aggregated counters. -/
def overallWinRate (total_wins total_trades : ℚ) : ℚ :=
  if total_trades ≠ 0 then total_wins / total_trades * 100 else 0

/-- One iteration of the `for` loop of `mergePairSummary`. -/
def mergeStep (tgt : List (String × PairSummary)) (kv : String × PairSummary) :
    List (String × PairSummary) :=
  match tgt.lookup kv.1 with
  | none => JsObj.set tgt kv.1 kv.2
  | some existing => JsObj.set tgt kv.1 (mergeStats existing kv.2)

/-!
The first revision of `GET /api/data` (route.ts lines 33-97) proxies the
external account-data HTTP API.  `τ` is the (opaque) type of one symbol's
trade data in `trades_by_symbol`, `φ` the type of one symbol's entry in
`forex_data`.
-/

/-- The upstream `summary_stats` object (`accountData.summary_stats`).  Fields
the route reads or writes are listed; all are optional JSON numbers. -/
structure SummaryStats where
  total_trades : Option ℚ
  total_wins : Option ℚ
  total_losses : Option ℚ
  total_pnl : Option ℚ
  total_pairs : Option ℚ
  overall_win_rate : Option ℚ
  deriving Repr, DecidableEq

/-- `accountData.summary_stats || {}` when the field is absent. -/
def emptySummaryStats : SummaryStats := ⟨none, none, none, none, none, none⟩

/-- The JSON body of the upstream `/account-data` response (route.ts lines 63-69). -/
structure AccountDataBody (τ φ : Type) where
  summary_stats : Option SummaryStats
  trades_by_symbol : Option (List (String × τ))
  forex_data : Option (List (String × φ))

/-- A resolved `fetch` response: its HTTP status together with the result of
`await response.json()` (which may itself reject). -/
structure FetchResp (β : Type) where
  status : ℕ
  body : Except String β

/-- `Response.ok`: the status is in the inclusive range 200-299. -/
def respOk (status : ℕ) : Bool := 200 ≤ status && status ≤ 299

/-- The JSON response of the proxy revision of `GET /api/data`. -/
structure ApiDataResponse (τ φ : Type) where
  status : ℕ
  error : Option String
  details : Option String
  summaryStats : Option SummaryStats
  tradesData : Option (List (String × τ))
  forexData : Option (List (String × φ))

/-- `GET /api/data`, proxy revision (route.ts lines 33-97).  `accountId` is
`searchParams.get('accountId')`; `fetchRes` the outcome of the upstream
`fetch`.  On success the route returns `trades_by_symbol` and `forex_data`
unchanged but spreads `summary_stats` and overwrites `total_pairs` (the number
of keys of `trades_by_symbol`, keys of a JSON object being distinct) and
`overall_win_rate` (lines 71-81). -/
def dataGET {τ φ : Type} (accountId : Option String)
    (fetchRes : Except String (FetchResp (AccountDataBody τ φ))) :
    ApiDataResponse τ φ :=
  if ¬ Js.truthyStr accountId ∨ accountId = some "ALL" then
    ⟨400, some "Account ID is required", none, none, none, none⟩
  else
    match fetchRes with
    | .error e => ⟨500, some "Failed to fetch data from API", some e, none, none, none⟩
    | .ok resp =>
      if ¬ respOk resp.status then
        ⟨resp.status, some ("Failed to fetch data from API: " ++ toString resp.status),
          none, none, none, none⟩
      else
        match resp.body with
        | .error e => ⟨500, some "Failed to fetch data from API", some e, none, none, none⟩
        | .ok accountData =>
          let summaryStats := accountData.summary_stats.getD emptySummaryStats
          let tradesBySymbol := accountData.trades_by_symbol.getD []
          let forexData := accountData.forex_data.getD []
          ⟨200, none, none,
            some { summaryStats with
                    total_pairs := some (tradesBySymbol.length : ℚ)
                    overall_win_rate :=
                      if Js.truthyNum summaryStats.total_trades then
                        Js.mul (Js.div summaryStats.total_wins summaryStats.total_trades) 100
                      else some 0 },
            some tradesBySymbol, some forexData⟩

/-!
The second revision of `GET /api/data` (route.ts, Firestore-backed) reads the
`accounts` collection and aggregates the `summary/latest`, `trades/byPair`
and `forex/byPair` documents of the selected accounts.  `π` is the type of an
open position, `ι` the type of an `account_info` object.
-/

/-- The `summary/latest` document of an account. -/
structure SummaryDoc (π ι : Type) where
  total_trades : Option ℚ
  total_wins : Option ℚ
  total_losses : Option ℚ
  total_pnl : Option ℚ
  open_positions : Option (List π)
  account_info : Option ι
  pairs_summary : Option (List (String × PairSummary))

/-- One symbol's entry of a `forex/byPair` document.  The merge logic only
touches `candles`; a non-array or absent `candles` field is `none` (the value
object itself is modelled as non-null). -/
structure ForexVal (φ : Type) where
  candles : Option (List φ)

/-- An account document with its three subcollection documents; `none` means
the subcollection document does not exist. A `trades/byPair` entry whose value
is not an array (skipped by the `Array.isArray` guard) is `none`. -/
structure AccountDoc (τ φ π ι : Type) where
  summaryLatest : Option (SummaryDoc π ι)
  tradesByPair : Option (List (String × Option (List τ)))
  forexByPair : Option (List (String × ForexVal φ))

/-- The aggregated summary built by the Firestore revision (route.ts lines
239-250 and 266-298). -/
structure AggSummary (π ι : Type) where
  total_pairs : ℚ
  total_trades : ℚ
  total_wins : ℚ
  total_losses : ℚ
  total_pnl : ℚ
  overall_win_rate : ℚ
  pairs_summary : List (String × PairSummary)
  account_info : List (String × Option ι)
  open_positions : List π
  last_updated : String

/-- The trades merge loop (route.ts lines 275-281): non-array entries are
skipped, otherwise the symbol's list is extended. -/
def mergeTrades {τ : Type} (agg : List (String × List τ))
    (doc : List (String × Option (List τ))) : List (String × List τ) :=
  doc.foldl
    (fun acc kv =>
      match kv.2 with
      | none => acc
      | some symbolTrades =>
        match acc.lookup kv.1 with
        | none => JsObj.set acc kv.1 symbolTrades
        | some cur => JsObj.set acc kv.1 (cur ++ symbolTrades))
    agg

/-- The forex merge loop (route.ts lines 283-292): a first occurrence is
stored as-is, and candles are concatenated when both sides carry an array. -/
def mergeForex {φ : Type} (agg : List (String × ForexVal φ))
    (doc : List (String × ForexVal φ)) : List (String × ForexVal φ) :=
  doc.foldl
    (fun acc kv =>
      match acc.lookup kv.1 with
      | none => JsObj.set acc kv.1 kv.2
      | some cur =>
        match cur.candles, kv.2.candles with
        | some cs, some ds => JsObj.set acc kv.1 ⟨some (cs ++ ds)⟩
        | _, _ => acc)
    agg

/-- The aggregation loop over the selected account documents (route.ts lines
239-298), ending with the `total_pairs` and `overall_win_rate` assignments. -/
def fsAggregate {τ φ π ι : Type} (nowIso : String)
    (docs : List (String × AccountDoc τ φ π ι)) :
    AggSummary π ι × List (String × List τ) × List (String × ForexVal φ) :=
  let init : AggSummary π ι := ⟨0, 0, 0, 0, 0, 0, [], [], [], nowIso⟩
  let out :=
    docs.foldl
      (fun st kv =>
        match kv.2.summaryLatest with
        | none => st
        | some summary =>
          let agg := st.1
          let trades := kv.2.tradesByPair.getD []
          let forex := kv.2.forexByPair.getD []
          ({ agg with
              total_trades := agg.total_trades + Js.orZero summary.total_trades
              total_wins := agg.total_wins + Js.orZero summary.total_wins
              total_losses := agg.total_losses + Js.orZero summary.total_losses
              total_pnl := agg.total_pnl + Js.orZero summary.total_pnl
              open_positions := agg.open_positions ++ summary.open_positions.getD []
              account_info := JsObj.set agg.account_info kv.1 summary.account_info
              pairs_summary := mergePairSummary agg.pairs_summary summary.pairs_summary },
            mergeTrades st.2.1 trades, mergeForex st.2.2 forex))
      (init, [], [])
  ({ out.1 with
      total_pairs := (out.2.1.length : ℚ)
      overall_win_rate := overallWinRate out.1.total_wins out.1.total_trades },
    out.2.1, out.2.2)

/-- The two `doc()` lookups of the single-account branch (route.ts lines
155-165): a second lookup is attempted with `parseInt(accountId, 10)` re-
rendered as a string, but the guard `numId.toString() === accountId` forces
that second document id to equal `accountId`, so it is a lookup with the same
key. -/
def lookupAccount {τ φ π ι : Type} (accounts : List (String × AccountDoc τ φ π ι))
    (accountId : String) : Option (AccountDoc τ φ π ι) :=
  match accounts.lookup accountId with
  | some doc => some doc
  | none =>
    match accountId.toInt? with
    | some numId =>
      if toString numId = accountId then accounts.lookup accountId else none
    | none => none

/-- Inputs of the Firestore revision of `GET /api/data`.  `dbInit` is
`getFirestore()`; `accounts` the content of the `accounts` collection
(document reads are modelled as consistent and reliable); `allFetch` the
outcome of `db.collection('accounts').get()` taken in the all-accounts
branch; `nowIso` is `new Date().toISOString()`. -/
structure FsEnv (τ φ π ι : Type) where
  accountId : Option String
  dbInit : Except String Unit
  accounts : List (String × AccountDoc τ φ π ι)
  allFetch : Except String Unit
  nowIso : String

/-- The JSON response of the Firestore revision of `GET /api/data`.  `debug`
holds the `debug.message` field attached by the two missing-data returns. -/
structure FsDataResponse (τ φ π ι : Type) where
  status : ℕ
  error : Option String
  details : Option String
  summaryStats : Option (AggSummary π ι)
  tradesData : List (String × List τ)
  forexData : List (String × ForexVal φ)
  debug : Option String

/-- The branch of the Firestore `GET` that decides which account documents to
aggregate, with each early `return` carried as a response (route.ts lines
135-233). -/
def fsCollectDocs {τ φ π ι : Type} (env : FsEnv τ φ π ι) :
    Except (FsDataResponse τ φ π ι) (List (String × AccountDoc τ φ π ι)) :=
  if Js.truthyStr env.accountId ∧ env.accountId ≠ some "ALL" then
    match lookupAccount env.accounts (env.accountId.getD "") with
    | none =>
      .error ⟨200, none, none, none, [], [], some "Account document not found"⟩
    | some doc =>
      match doc.summaryLatest with
      | none =>
        .error ⟨200, none, none, none, [], [], some "Account exists but no summary data"⟩
      | some _ => .ok [(env.accountId.getD "", doc)]
  else
    match env.allFetch with
    | .error e => .error ⟨500, some "Failed to fetch accounts", some e, none, [], [], none⟩
    | .ok _ => .ok (env.accounts.filter (fun kv => kv.2.summaryLatest.isSome))

/-- `GET /api/data`, Firestore revision (route.ts lines 133-313). -/
def dataGETFirestore {τ φ π ι : Type} (env : FsEnv τ φ π ι) : FsDataResponse τ φ π ι :=
  match env.dbInit with
  | .error e => ⟨500, some "Database connection failed", some e, none, [], [], none⟩
  | .ok _ =>
    match fsCollectDocs env with
    | .error earlyResponse => earlyResponse
    | .ok accountDocs =>
      if accountDocs.length = 0 then
        ⟨200, none, none, none, [], [], none⟩
      else
        ⟨200, none, none, some (fsAggregate env.nowIso accountDocs).1,
          (fsAggregate env.nowIso accountDocs).2.1,
          (fsAggregate env.nowIso accountDocs).2.2, none⟩

end DataRoute

namespace Sw

/-!
`frontend/public/sw.js` (revision 7) — the `onBackgroundMessage` handler with
its deduplication scheme.
-/

/-- A notification currently displayed by the registration, as surfaced by
`self.registration.getNotifications()`. -/
structure Notif where
  tag : String
  title : String
  body : String
  timestamp : Option ℤ
  deriving Repr, DecidableEq

/-- The parts of an FCM push payload the handler reads. -/
structure BgPayload where
  dataTag : Option String
  title : Option String
  body : Option String
  deriving Repr, DecidableEq

/-- `NOTIFICATION_TIMEOUT` (sw.js line 38): the 1000 ms cooldown after which
the `setTimeout` callbacks clear `notificationShown` again. -/
def NOTIFICATION_TIMEOUT : ℤ := 1000

/-- `payload.data?.tag || generated` (sw.js line 87); `genTag` is the random
`trader-notif-…` string generated on the right of `||`. -/
def bgTag (p : BgPayload) (genTag : String) : String := Js.orStr p.dataTag genTag

/-- Observable outcome of one run of the background handler.  `shown` records
whether `showNotification` was invoked; `flagSet` whether the handler executed
`notificationShown = true` (the later `setTimeout`/error resets are outside
one synchronous run). -/
structure BgOutcome where
  shown : Bool
  flagSet : Bool
  tag : String
  title : String
  body : String
  deriving Repr, DecidableEq

/-- The `messaging.onBackgroundMessage` handler (sw.js lines 76-202).  `flag`
is the module-level `notificationShown` boolean on entry; `query` the outcome
of `self.registration.getNotifications()`; `now` is `Date.now()`.  The
`.catch` fallback (lines 176-201) shows the notification even though the
duplicate checks could not run. -/
def onBackgroundMessage (flag : Bool) (p : BgPayload) (genTag : String)
    (query : Except Unit (List Notif)) (now : ℤ) : BgOutcome :=
  let tag := bgTag p genTag
  let notificationTitle := Js.orStr p.title "Background Message Title"
  let notificationBody := Js.orStr p.body "Background Message body."
  if flag then ⟨false, false, tag, notificationTitle, notificationBody⟩
  else
    match query with
    | .ok allNotifications =>
      let tagMatches := allNotifications.filter (fun n => n.tag = tag)
      if tagMatches.length > 0 then
        ⟨false, false, tag, notificationTitle, notificationBody⟩
      else
        let recentNotifications := allNotifications.filter (fun n =>
          now - n.timestamp.getD 0 < 2000 ∧
            n.title = notificationTitle ∧ n.body = notificationBody)
        if recentNotifications.length > 0 then
          ⟨false, false, tag, notificationTitle, notificationBody⟩
        else
          ⟨true, true, tag, notificationTitle, notificationBody⟩
    | .error _ =>
      ⟨true, true, tag, notificationTitle, notificationBody⟩

end Sw

namespace Fg

/-!
`frontend/components/NotificationHandler.tsx` (current revision) — the
foreground `onMessage` deduplication (lines 404-441), the three-strategy
`getToken` chain (lines 213-302), and one tick of `useAutoRefresh`
(`frontend/app/hooks/useAutoRefresh.ts` lines 22-29).
-/

/-- `NOTIFICATION_COOLDOWN` (NotificationHandler.tsx line 414). -/
def NOTIFICATION_COOLDOWN : ℤ := 2000

/-- JS truthiness of a possibly-missing timestamp (`undefined` and `0` falsy). -/
def truthyTs (x : Option ℤ) : Bool :=
  match x with
  | some v => v ≠ 0
  | none => false

/-- The deduplication prologue of the `onMessage` handler
(NotificationHandler.tsx lines 404-441).  `stored` is the parsed
`localStorage['recent-notifications']` map; `genTag` the random tag generated
when `payload.data?.tag` is falsy; `now` is `Date.now()`.  The result is
(whether the handler continues past the dedup check, the
`recent-notifications` map left in localStorage): on the duplicate early
return nothing is written back, otherwise the pruned map plus the fresh key
is stored via `localStorage.setItem`. -/
def onMessageDedup (dataTag : Option String) (genTag : String)
    (stored : String → Option ℤ) (now : ℤ) :
    Bool × (String → Option ℤ) :=
  let uniqueTag := Js.orStr dataTag genTag
  let notificationKey := "notif-shown-" ++ uniqueTag
  let recentNotifications : String → Option ℤ := fun k =>
    match stored k with
    | some v => if now - v > NOTIFICATION_COOLDOWN then none else some v
    | none => none
  if truthyTs (recentNotifications notificationKey) then
    (false, stored)
  else
    (true, fun k => if k = notificationKey then some now else recentNotifications k)

/-- The three `getToken` strategies (NotificationHandler.tsx lines 213-302):
strategy 1 with the explicit registration, on failure strategy 2 with
auto-detection, on failure strategy 3 retrying the explicit registration;
`error3` is rethrown when all fail.  The second component counts how many
`getToken` calls the chain performed. -/
def getTokenAttempts (r1 r2 r3 : Except String String) : Except String String × ℕ :=
  match r1 with
  | .ok t => (.ok t, 1)
  | .error _ =>
    match r2 with
    | .ok t => (.ok t, 2)
    | .error _ =>
      match r3 with
      | .ok t => (.ok t, 3)
      | .error e => (.error e, 3)

/-- One `setInterval` tick of `useAutoRefresh` (useAutoRefresh.ts lines
22-29): `refreshFunction` is invoked exactly once (second component); on
success `lastRefresh` becomes `now`, a failure is logged and swallowed,
leaving `lastRefresh` unchanged until the next scheduled tick. -/
def autoRefreshTick (result : Except String Unit) (lastRefresh now : ℤ) : ℤ × ℕ :=
  (match result with
   | .ok _ => now
   | .error _ => lastRefresh, 1)

end Fg

namespace Cli

/-!
`runAccountManagerCommand` — the shell-exec bridge to the Python account
manager CLI (`frontend/app/api/accounts/route.ts` lines 24-58, with identical
copies in `accounts/[id]/route.ts` and `accounts/fetch-data/route.ts`).
-/

/-- A rejection of `execAsync` (the promisified `child_process.exec`): the
command failed to spawn or exited non-zero.  Node attaches the captured
`stdout`/`stderr` to the error object. -/
structure ExecFailure where
  message : String
  stdout : String
  stderr : String
  deriving Repr, DecidableEq

/-- The ways `runAccountManagerCommand` can throw. -/
inductive CliError where
  | execFailed : ExecFailure → CliError
  | noOutput : CliError
  | parseFailed : String → CliError
  deriving Repr, DecidableEq

/-- The `message` of the thrown `Error`: `parseFailed` carries the trimmed
output, truncated by `output.substring(0, 200)`. -/
def CliError.message : CliError → String
  | .execFailed e => e.message
  | .noOutput => "No output from command"
  | .parseFailed out => "Failed to parse output: " ++ out.take 200

/-- `runAccountManagerCommand` from the `await execAsync(...)` on (route.ts
lines 37-57).  `parse` is `JSON.parse` (an abstract parser of the route's
result type `α`, `none` when parsing throws); `execResult` the exec outcome,
whose resolved value is the `{ stdout, stderr }` pair.  `stderr` is only
logged (line 43-45) and never affects the result. -/
def runAccountManagerCommand {α : Type} (parse : String → Option α)
    (execResult : Except ExecFailure (String × String)) : Except CliError α :=
  match execResult with
  | .error e => .error (.execFailed e)
  | .ok (stdout, _stderr) =>
    let output := Js.trim stdout
    if output = "" then .error .noOutput
    else
      match parse output with
      | some v => .ok v
      | none => .error (.parseFailed output)

/-- The trimmed stdout an invocation carries, whether the exec resolved or
rejected (Node attaches `stdout` to the rejection error as well). -/
def execStdout (execResult : Except ExecFailure (String × String)) : String :=
  match execResult with
  | .error e => e.stdout
  | .ok (stdout, _) => stdout

end Cli

namespace Routes

/-!
The remaining Next.js API route handlers:
* `frontend/app/api/register-token/route.ts` — `POST` (current revision);
* `frontend/app/api/send-notification/route.ts` — `POST`;
* `frontend/app/api/accounts/route.ts` — `GET`, `POST`;
* `frontend/app/api/accounts/[id]/route.ts` — `DELETE`, `PATCH`;
* `frontend/app/api/accounts/fetch-data/route.ts` — `POST`.
Each handler takes the outcomes of its fallible steps (body parse, CLI run,
upstream fetch) as `Except` inputs and, mirroring its top-level `try/catch`,
totally maps every combination to an HTTP response.
-/

/-- A resolved `fetch` to the notification service: HTTP status plus the
outcome of `await response.json()`. -/
structure FetchResp (β : Type) where
  status : ℕ
  body : Except String β

/-- `Response.ok`: the status is in the inclusive range 200-299. -/
def respOk (status : ℕ) : Bool := 200 ≤ status && status ≤ 299

/-- The request body of `POST /api/register-token` (route.ts line 335). -/
structure RegisterBody where
  token : Option String
  app_id : Option String
  user_id : Option String
  device_type : Option String
  platform : Option String
  deriving Repr, DecidableEq

/-- The parsed JSON the notification service answers with: its `success`
flag (a missing field being falsy), optional `error`, optional `app_id`. -/
structure NotifServiceResult where
  success : Bool
  error : Option String
  app_id : Option String
  deriving Repr, DecidableEq

/-- The response of `POST /api/register-token`, with `forwarded` recording
whether the fetch to the notification service was issued at all. -/
structure RegisterResponse where
  status : ℕ
  success : Option Bool
  message : Option String
  error : Option String
  details : Option String
  hint : Option String
  app_id : Option String
  forwarded : Bool
  deriving Repr, DecidableEq

/-- `POST /api/register-token` (register-token/route.ts lines 332-445).
`body` is `await request.json()`; `fetchRes` the forwarding fetch (its inner
`catch` also receives a `response.json()` rejection). -/
def registerTokenPOST (body : Except String RegisterBody)
    (fetchRes : Except String (FetchResp NotifServiceResult)) : RegisterResponse :=
  match body with
  | .error e =>
    ⟨500, some false, none, some "Failed to register token", some e, none, none, false⟩
  | .ok b =>
    if ¬ Js.truthyStr b.token then
      ⟨400, some false, none, some "Device token is required", none, none, none, false⟩
    else
      match fetchRes with
      | .error fe =>
        ⟨503, some false, none, some "Notification service unavailable", some fe,
          some "Please start the notification service on port 5001", none, true⟩
      | .ok resp =>
        match resp.body with
        | .error je =>
          ⟨503, some false, none, some "Notification service unavailable", some je,
            some "Please start the notification service on port 5001", none, true⟩
        | .ok result =>
          if respOk resp.status ∧ result.success then
            ⟨200, some true, some "Token registered successfully", none, none, none,
              result.app_id, true⟩
          else
            ⟨resp.status, some false, none,
              some (Js.orStr result.error "Failed to register token"),
              none, none, none, true⟩

/-- The request body of `POST /api/send-notification` (route.ts line 7);
`messageBody` is the destructured `body` field. -/
structure SendBody where
  token : Option String
  title : Option String
  messageBody : Option String
  app_id : Option String
  deriving Repr, DecidableEq

/-- The response of `POST /api/send-notification`. -/
structure SendResponse where
  status : ℕ
  success : Option Bool
  error : Option String
  details : Option String
  deriving Repr, DecidableEq

/-- `POST /api/send-notification` (send-notification/route.ts lines 4-61). -/
def sendNotificationPOST (body : Except String SendBody)
    (fetchRes : Except String (FetchResp NotifServiceResult)) : SendResponse :=
  match body with
  | .error e => ⟨500, some false, some "Failed to send notification", some e⟩
  | .ok b =>
    if ¬ Js.truthyStr b.token then
      ⟨400, some false, some "Device token is required", none⟩
    else
      match fetchRes with
      | .error fe => ⟨503, some false, some "Notification service unavailable", some fe⟩
      | .ok resp =>
        match resp.body with
        | .error je => ⟨503, some false, some "Notification service unavailable", some je⟩
        | .ok result =>
          if respOk resp.status ∧ result.success then
            ⟨200, some result.success, result.error, none⟩
          else
            ⟨resp.status, some false,
              some (Js.orStr result.error "Failed to send notification"), none⟩

/-- `interface Account` (accounts/route.ts lines 15-21). -/
structure Account where
  id : String
  name : String
  enabled : Bool
  deriving Repr, DecidableEq

/-- The parsed CLI output of the `list` command. -/
structure ListResult where
  success : Bool
  error : Option String
  accounts : Option (List Account)
  deriving Repr, DecidableEq

/-- The response of `GET /api/accounts`. -/
structure AccountsGetResponse where
  status : ℕ
  error : Option String
  details : Option String
  accounts : Option (List Account)
  deriving Repr, DecidableEq

/-- `GET /api/accounts` (accounts/route.ts lines 61-77).  A non-`success`
CLI result is thrown and caught by the same `catch`, so both CLI failure and
non-success map to a 500 with the thrown message in `details`. -/
def accountsGET (cliRes : Except Cli.CliError ListResult) : AccountsGetResponse :=
  match cliRes with
  | .error e => ⟨500, some "Failed to fetch accounts", some e.message, none⟩
  | .ok result =>
    if ¬ result.success then
      ⟨500, some "Failed to fetch accounts",
        some (Js.orStr result.error "Failed to fetch accounts"), none⟩
    else
      ⟨200, none, none, some (result.accounts.getD [])⟩

/-- The request body of `POST /api/accounts` (accounts/route.ts line 83). -/
structure PostBody where
  account_id : Option String
  name : Option String
  deriving Repr, DecidableEq

/-- The parsed CLI output of the `validate` command; `existing` embeds the
CLI field `exists`. -/
structure ValidationResult where
  valid : Bool
  existing : Bool
  error : Option String
  deriving Repr, DecidableEq

/-- The parsed CLI output of the `add` command. -/
structure AddResult where
  success : Bool
  account : Option Account
  data_fetch_triggered : Option Bool
  error : Option String
  deriving Repr, DecidableEq

/-- The response of `POST /api/accounts`; `addExecuted` records whether the
`add` CLI command was run at all. -/
structure AccountsPostResponse where
  status : ℕ
  error : Option String
  details : Option String
  account : Option Account
  data_fetch_triggered : Option Bool
  addExecuted : Bool
  deriving Repr, DecidableEq

/-- `POST /api/accounts` (accounts/route.ts lines 80-135): body parse, the
`!account_id` guard, the `validate` CLI run with its dedicated `try/catch`
(lines 92-106), then the `add` CLI run. -/
def accountsPOST (body : Except String PostBody)
    (validateRes : Except Cli.CliError ValidationResult)
    (addRes : Except Cli.CliError AddResult) : AccountsPostResponse :=
  match body with
  | .error e => ⟨500, some "Failed to add account", some e, none, none, false⟩
  | .ok b =>
    if ¬ Js.truthyStr b.account_id then
      ⟨400, some "account_id is required", none, none, none, false⟩
    else
      match validateRes with
      | .error e =>
        ⟨400, some "Account validation failed", some e.message, none, none, false⟩
      | .ok validation =>
        if ¬ validation.valid ∨ validation.existing then
          ⟨400, some (Js.orStr validation.error
              "Invalid account ID or account already exists"),
            none, none, none, false⟩
        else
          match addRes with
          | .error e =>
            ⟨500, some "Failed to add account", some e.message, none, none, true⟩
          | .ok result =>
            if result.success then
              ⟨201, none, none, result.account,
                some (result.data_fetch_triggered.getD false), true⟩
            else
              ⟨400, some (Js.orStr result.error "Failed to add account"),
                none, none, none, true⟩

/-- The parsed CLI output of the `delete`/`update` commands. -/
structure OpResult where
  success : Bool
  error : Option String
  account : Option Account
  deriving Repr, DecidableEq

/-- The response of `DELETE`/`PATCH /api/accounts/[id]`. -/
structure IdResponse where
  status : ℕ
  success : Option Bool
  error : Option String
  details : Option String
  account : Option Account
  deriving Repr, DecidableEq

/-- `DELETE /api/accounts/[id]` ([id]/route.ts lines 51-83). -/
def accountsDELETE (accountId : Option String)
    (cliRes : Except Cli.CliError OpResult) : IdResponse :=
  if ¬ Js.truthyStr accountId then
    ⟨400, none, some "Account ID is required", none, none⟩
  else
    match cliRes with
    | .error e => ⟨500, none, some "Failed to delete account", some e.message, none⟩
    | .ok result =>
      if result.success then ⟨200, some true, none, none, none⟩
      else ⟨404, none, some (Js.orStr result.error "Account not found"), none, none⟩

/-- The request body of `PATCH /api/accounts/[id]`; the route checks these
fields against `undefined` (not truthiness) when building the CLI args. -/
structure PatchBody where
  name : Option String
  enabled : Option Bool
  deriving Repr, DecidableEq

/-- `PATCH /api/accounts/[id]` ([id]/route.ts lines 86-135).  `args.length
=== 2` (no updates) is both fields `undefined`. -/
def accountsPATCH (accountId : Option String) (body : Except String PatchBody)
    (cliRes : Except Cli.CliError OpResult) : IdResponse :=
  match body with
  | .error e => ⟨500, none, some "Failed to update account", some e, none⟩
  | .ok b =>
    if ¬ Js.truthyStr accountId then
      ⟨400, none, some "Account ID is required", none, none⟩
    else if b.name = none ∧ b.enabled = none then
      ⟨400, none, some "No updates provided", none, none⟩
    else
      match cliRes with
      | .error e => ⟨500, none, some "Failed to update account", some e.message, none⟩
      | .ok result =>
        if result.success then ⟨200, none, none, none, result.account⟩
        else ⟨404, none, some (Js.orStr result.error "Account not found"), none, none⟩

/-- The parsed CLI output of the `fetch-data` command. -/
structure FetchDataResult where
  success : Bool
  message : Option String
  error : Option String
  deriving Repr, DecidableEq

/-- The response of `POST /api/accounts/fetch-data`. -/
structure FetchDataResponse where
  status : ℕ
  success : Option Bool
  message : Option String
  error : Option String
  details : Option String
  deriving Repr, DecidableEq

/-- `POST /api/accounts/fetch-data` (fetch-data/route.ts lines 49-79).  The
body parse carries its own `.catch(() => ({}))`, so a malformed body only
means a missing `account_id` (which merely drops the `--account-id` CLI
argument). -/
def fetchDataPOST (body : Except String (Option String))
    (cliRes : Except Cli.CliError FetchDataResult) : FetchDataResponse :=
  let _account_id : Option String :=
    match body with
    | .error _ => none
    | .ok a => a
  match cliRes with
  | .error e => ⟨500, none, none, some "Failed to trigger data fetch", some e.message⟩
  | .ok result =>
    if result.success then
      ⟨200, some true, some (Js.orStr result.message "Data fetch triggered"), none, none⟩
    else
      ⟨500, none, none, some (Js.orStr result.error "Failed to trigger data fetch"), none⟩

end Routes

/-!
Theorems.  The lemmas below settle the claims against the embedded
definitions; auxiliary lookup and fold lemmas come first.
-/
namespace JsObj

/-- `m[k]` on a cons cell whose key matches. -/
theorem lookup_cons_self {β : Type} (k : String) (v : β) (l : List (String × β)) :
    ((k, v) :: l).lookup k = some v := by
  simp [List.lookup]

/-- `m[k']` skips a cons cell with a different key. -/
theorem lookup_cons_ne {β : Type} (k k' : String) (v : β) (l : List (String × β))
    (h : k' ≠ k) : ((k, v) :: l).lookup k' = l.lookup k' := by
  have hb : (k' == k) = false := beq_false_of_ne h
  simp [List.lookup, hb]

theorem lookup_overwrite {β : Type} (m : List (String × β)) (k : String) (v : β) :
    (m.map (fun p => if p.1 = k then (k, v) else p)).lookup k =
      (m.lookup k).map (fun _ => v) := by
  induction m with
  | nil => rfl
  | cons hd tl ih =>
    obtain ⟨k0, v0⟩ := hd
    by_cases h : k0 = k
    · subst h
      simp only [List.map_cons]
      rw [if_true]
      rw [lookup_cons_self, lookup_cons_self]
      rfl
    · simp only [List.map_cons, if_neg h]
      rw [lookup_cons_ne _ _ _ _ (Ne.symm h), lookup_cons_ne _ _ _ _ (Ne.symm h), ih]

theorem lookup_overwrite_ne {β : Type} (m : List (String × β)) (k k' : String) (v : β)
    (hne : k ≠ k') :
    (m.map (fun p => if p.1 = k then (k, v) else p)).lookup k' = m.lookup k' := by
  induction m with
  | nil => rfl
  | cons hd tl ih =>
    obtain ⟨k0, v0⟩ := hd
    by_cases h : k0 = k
    · subst h
      simp only [List.map_cons]
      rw [if_true]
      rw [lookup_cons_ne _ _ _ _ (Ne.symm hne), lookup_cons_ne _ _ _ _ (Ne.symm hne)]
      exact ih
    · simp only [List.map_cons, if_neg h]
      by_cases h' : k0 = k'
      · subst h'
        rw [lookup_cons_self, lookup_cons_self]
      · rw [lookup_cons_ne _ _ _ _ (Ne.symm h'), lookup_cons_ne _ _ _ _ (Ne.symm h')]
        exact ih

theorem lookup_append {β : Type} (m l : List (String × β)) (k : String) :
    (m ++ l).lookup k = (m.lookup k).or (l.lookup k) := by
  induction m with
  | nil => simp [Option.or]
  | cons hd tl ih =>
    obtain ⟨k0, v0⟩ := hd
    by_cases h : k0 = k
    · subst h
      rw [List.cons_append, lookup_cons_self, lookup_cons_self]
      rfl
    · rw [List.cons_append, lookup_cons_ne _ _ _ _ (Ne.symm h),
        lookup_cons_ne _ _ _ _ (Ne.symm h), ih]

theorem lookup_set_self {β : Type} (m : List (String × β)) (k : String) (v : β) :
    (set m k v).lookup k = some v := by
  unfold set
  split
  · rename_i hs
    rw [lookup_overwrite]
    rcases h : m.lookup k with _ | w
    · rw [h] at hs; simp at hs
    · rfl
  · rename_i hs
    rw [lookup_append]
    rcases h : m.lookup k with _ | w
    · rw [lookup_cons_self]; rfl
    · rw [h] at hs; simp at hs

theorem lookup_set_ne {β : Type} (m : List (String × β)) (k k' : String) (v : β)
    (hne : k ≠ k') : (set m k v).lookup k' = m.lookup k' := by
  unfold set
  split
  · exact lookup_overwrite_ne m k k' v hne
  · rw [lookup_append, lookup_cons_ne _ _ _ _ (Ne.symm hne)]
    rcases h : m.lookup k' with _ | w <;> rfl

/-- A key that does not occur in the list looks up to nothing. -/
theorem lookup_none_of_not_mem {β : Type} (m : List (String × β)) (k : String)
    (h : k ∉ m.map Prod.fst) : m.lookup k = none := by
  induction m with
  | nil => rfl
  | cons hd tl ih =>
    simp only [List.map_cons, List.mem_cons] at h
    push_neg at h
    obtain ⟨k0, v0⟩ := hd
    rw [lookup_cons_ne _ _ _ _ h.1]
    exact ih h.2

/-- Conversely, a key whose lookup fails does not occur in the list. -/
theorem not_mem_of_lookup_eq_none {β : Type} (m : List (String × β)) (k : String)
    (h : m.lookup k = none) : k ∉ m.map Prod.fst := by
  induction m with
  | nil => simp
  | cons hd tl ih =>
    obtain ⟨k0, v0⟩ := hd
    by_cases he : k = k0
    · subst he
      rw [lookup_cons_self] at h
      simp at h
    · rw [lookup_cons_ne _ _ _ _ he] at h
      simp only [List.map_cons, List.mem_cons]
      push_neg
      exact ⟨he, ih h⟩

end JsObj

namespace DataRoute

theorem mergePairSummary_eq_foldl (target inc : List (String × PairSummary)) :
    mergePairSummary target (some inc) = inc.foldl mergeStep target := by
  rfl

theorem lookup_mergeStep_ne (tgt : List (String × PairSummary)) (kv : String × PairSummary)
    (pair : String) (hne : kv.1 ≠ pair) :
    (mergeStep tgt kv).lookup pair = tgt.lookup pair := by
  unfold mergeStep
  cases tgt.lookup kv.1 <;> exact JsObj.lookup_set_ne _ _ _ _ hne

theorem lookup_foldl_not_mem (inc : List (String × PairSummary))
    (tgt : List (String × PairSummary)) (pair : String)
    (h : pair ∉ inc.map Prod.fst) :
    (inc.foldl mergeStep tgt).lookup pair = tgt.lookup pair := by
  induction inc generalizing tgt with
  | nil => rfl
  | cons hd tl ih =>
    simp only [List.map_cons, List.mem_cons] at h
    push_neg at h
    rw [List.foldl_cons, ih _ h.2, lookup_mergeStep_ne _ _ _ (Ne.symm h.1)]

theorem lookup_foldl_copy (inc : List (String × PairSummary))
    (tgt : List (String × PairSummary)) (pair : String) (s : PairSummary)
    (hnd : (inc.map Prod.fst).Nodup)
    (hinc : inc.lookup pair = some s) (htgt : tgt.lookup pair = none) :
    (inc.foldl mergeStep tgt).lookup pair = some s := by
  induction inc generalizing tgt with
  | nil => simp [List.lookup] at hinc
  | cons hd tl ih =>
    rw [List.map_cons, List.nodup_cons] at hnd
    obtain ⟨k0, v0⟩ := hd
    by_cases h : k0 = pair
    · subst h
      rw [JsObj.lookup_cons_self] at hinc
      rw [List.foldl_cons, lookup_foldl_not_mem tl _ k0 hnd.1]
      unfold mergeStep
      simp only
      rw [htgt, ← Option.some_inj.mp hinc]
      exact JsObj.lookup_set_self _ _ _
    · rw [JsObj.lookup_cons_ne _ _ _ _ (Ne.symm h)] at hinc
      rw [List.foldl_cons]
      exact ih _ hnd.2 hinc (by rw [lookup_mergeStep_ne _ _ _ h, htgt])

theorem lookup_foldl_merge (inc : List (String × PairSummary))
    (tgt : List (String × PairSummary)) (pair : String) (s e : PairSummary)
    (hnd : (inc.map Prod.fst).Nodup)
    (hinc : inc.lookup pair = some s) (htgt : tgt.lookup pair = some e) :
    (inc.foldl mergeStep tgt).lookup pair = some (mergeStats e s) := by
  induction inc generalizing tgt with
  | nil => simp [List.lookup] at hinc
  | cons hd tl ih =>
    rw [List.map_cons, List.nodup_cons] at hnd
    obtain ⟨k0, v0⟩ := hd
    by_cases h : k0 = pair
    · subst h
      rw [JsObj.lookup_cons_self] at hinc
      rw [List.foldl_cons, lookup_foldl_not_mem tl _ k0 hnd.1]
      unfold mergeStep
      simp only
      rw [htgt, ← Option.some_inj.mp hinc]
      exact JsObj.lookup_set_self _ _ _
    · rw [JsObj.lookup_cons_ne _ _ _ _ (Ne.symm h)] at hinc
      rw [List.foldl_cons]
      exact ih _ hnd.2 hinc (by rw [lookup_mergeStep_ne _ _ _ h, htgt])

theorem mergeStats_fields (e s : PairSummary) (tt w l p : ℚ)
    (h1 : e.total_trades = some tt) (h2 : e.wins = some w)
    (h3 : e.losses = some l) (h4 : e.total_pnl = some p) :
    (mergeStats e s).total_trades = some (tt + Js.orZero s.total_trades) ∧
    (mergeStats e s).wins = some (w + Js.orZero s.wins) ∧
    (mergeStats e s).losses = some (l + Js.orZero s.losses) ∧
    (mergeStats e s).total_pnl = some (p + Js.orZero s.total_pnl) ∧
    (mergeStats e s).win_rate =
      (if tt + Js.orZero s.total_trades ≠ 0 then
        some ((w + Js.orZero s.wins) / (tt + Js.orZero s.total_trades) * 100)
       else some 0) ∧
    (mergeStats e s).avg_pnl =
      (if tt + Js.orZero s.total_trades ≠ 0 then
        some ((p + Js.orZero s.total_pnl) / (tt + Js.orZero s.total_trades))
       else some 0) := by
  unfold mergeStats
  simp only [h1, h2, h3, h4, Js.add, Option.map_some, Js.truthyNum]
  by_cases hz : tt + Js.orZero s.total_trades = 0
  · simp [hz, Js.div, Js.mul]
  · simp [hz, Js.div, Js.mul]

theorem fsAggregate_overall {τ φ π ι : Type} (nowIso : String)
    (docs : List (String × AccountDoc τ φ π ι)) :
    ((fsAggregate nowIso docs).1).overall_win_rate =
      overallWinRate ((fsAggregate nowIso docs).1).total_wins
        ((fsAggregate nowIso docs).1).total_trades := by
  unfold fsAggregate
  rfl

theorem fsCollectDocs_error_summary {τ φ π ι : Type} (env : FsEnv τ φ π ι)
    (r : FsDataResponse τ φ π ι) (h : fsCollectDocs env = .error r) :
    r.summaryStats = none := by
  unfold fsCollectDocs at h
  split at h
  · split at h
    · cases h
      rfl
    · split at h
      · cases h
        rfl
      · cases h
  · split at h
    · cases h
      rfl
    · cases h

/-- Claim C4: `mergePairSummary(target, incoming)` copies a pair present only
in `incoming` into `target`; a pair present in both ends with `total_trades`,
`wins`, `losses` and `total_pnl` summed (missing incoming fields counting as
0), `win_rate = (wins / total_trades) * 100` and `avg_pnl = total_pnl /
total_trades` when the merged `total_trades` is nonzero and 0 otherwise;
pairs absent from `incoming` are unchanged; and the Firestore `GET /api/data`
defines the aggregated `overall_win_rate` by the same guarded formula. -/
theorem mergePairSummary_spec {τ φ π ι : Type}
    (target inc : List (String × PairSummary)) (pair : String)
    (hnd : (inc.map Prod.fst).Nodup) :
    (inc.lookup pair = none →
      (mergePairSummary target (some inc)).lookup pair = target.lookup pair) ∧
    (∀ s, inc.lookup pair = some s → target.lookup pair = none →
      (mergePairSummary target (some inc)).lookup pair = some s) ∧
    (∀ s e tt w l p, inc.lookup pair = some s → target.lookup pair = some e →
      e.total_trades = some tt → e.wins = some w → e.losses = some l →
      e.total_pnl = some p →
      ∃ m, (mergePairSummary target (some inc)).lookup pair = some m ∧
        m.total_trades = some (tt + Js.orZero s.total_trades) ∧
        m.wins = some (w + Js.orZero s.wins) ∧
        m.losses = some (l + Js.orZero s.losses) ∧
        m.total_pnl = some (p + Js.orZero s.total_pnl) ∧
        m.win_rate =
          (if tt + Js.orZero s.total_trades ≠ 0 then
            some ((w + Js.orZero s.wins) / (tt + Js.orZero s.total_trades) * 100)
          else some 0) ∧
        m.avg_pnl =
          (if tt + Js.orZero s.total_trades ≠ 0 then
            some ((p + Js.orZero s.total_pnl) / (tt + Js.orZero s.total_trades))
          else some 0)) ∧
    (∀ (env : FsEnv τ φ π ι) agg, (dataGETFirestore env).summaryStats = some agg →
      agg.overall_win_rate =
        if agg.total_trades ≠ 0 then agg.total_wins / agg.total_trades * 100 else 0) := by
  refine ⟨?_, ?_, ?_, ?_⟩
  · intro hnone
    rw [mergePairSummary_eq_foldl]
    exact lookup_foldl_not_mem inc target pair (JsObj.not_mem_of_lookup_eq_none inc pair hnone)
  · intro s hinc htgt
    rw [mergePairSummary_eq_foldl]
    exact lookup_foldl_copy inc target pair s hnd hinc htgt
  · intro s e tt w l p hinc htgt h1 h2 h3 h4
    refine ⟨mergeStats e s, ?_, mergeStats_fields e s tt w l p h1 h2 h3 h4⟩
    rw [mergePairSummary_eq_foldl]
    exact lookup_foldl_merge inc target pair s e hnd hinc htgt
  · intro env agg hagg
    unfold dataGETFirestore at hagg
    rcases hdb : env.dbInit with e | u
    · rw [hdb] at hagg
      simp at hagg
    · rw [hdb] at hagg
      rcases hcol : fsCollectDocs env with r | docs
      · rw [hcol] at hagg
        simp only at hagg
        rw [fsCollectDocs_error_summary env r hcol] at hagg
        cases hagg
      · rw [hcol] at hagg
        simp only at hagg
        by_cases hlen : docs.length = 0
        · rw [if_pos hlen] at hagg
          cases hagg
        · rw [if_neg hlen] at hagg
          simp only [Option.some_inj] at hagg
          rw [← hagg, fsAggregate_overall]
          rfl

/-- Witness for C4: merging `{EURUSD: 2 trades, 1 win}` with an incoming
`{EURUSD: 2 trades, 3 wins}` yields 4 trades, 4 wins and a 100 % win rate. -/
theorem mergePairSummary_spec_witness :
    ∃ m : PairSummary,
      (mergePairSummary
          [("EURUSD", ⟨some 2, some 1, some 1, some 10, some 50, some 5⟩)]
          (some [("EURUSD", ⟨some 2, some 3, some 0, some 6, none, none⟩)])).lookup
        "EURUSD" = some m ∧
      m.total_trades = some 4 ∧ m.wins = some 4 ∧ m.losses = some 1 ∧
      m.total_pnl = some 16 ∧ m.win_rate = some 100 ∧ m.avg_pnl = some 4 := by
  obtain ⟨m, hm, h1, h2, h3, h4, h5, h6⟩ :=
    (mergePairSummary_spec (τ := Unit) (φ := Unit) (π := Unit) (ι := Unit)
      [("EURUSD", ⟨some 2, some 1, some 1, some 10, some 50, some 5⟩)]
      [("EURUSD", ⟨some 2, some 3, some 0, some 6, none, none⟩)] "EURUSD"
      (by simp)).2.2.1
      ⟨some 2, some 3, some 0, some 6, none, none⟩
      ⟨some 2, some 1, some 1, some 10, some 50, some 5⟩ 2 1 1 10
      (JsObj.lookup_cons_self _ _ _) (JsObj.lookup_cons_self _ _ _) rfl rfl rfl rfl
  refine ⟨m, hm, ?_, ?_, ?_, ?_, ?_, ?_⟩ <;>
    simp_all [Js.orZero] <;> norm_num

/-- Counterexample to C3 as stated: the proxy `GET /api/data` does not pass
`summary_stats` through unchanged — for an upstream response with an empty
summary object and one trade symbol it injects the derived field
`total_pairs = 1` (and `overall_win_rate = 0`). -/
theorem dataGET_passthrough_counterexample :
    (dataGET (τ := Unit) (φ := Unit) (some "123")
        (.ok ⟨200, .ok ⟨some emptySummaryStats, some [("EURUSD", ())], none⟩⟩)).summaryStats
      ≠ some emptySummaryStats := by
  intro h
  simp [dataGET, emptySummaryStats, Js.truthyStr, respOk, Js.truthyNum] at h

/-- Claim C3 (amended): on the success path the proxy `GET /api/data` passes
`trades_by_symbol` and `forex_data` through unchanged and preserves every
upstream `summary_stats` field except two it computes itself: `total_pairs`
(the number of trade symbols) and `overall_win_rate` (the guarded win-rate
formula). -/
theorem dataGET_spec {τ φ : Type} (accountId : Option String)
    (resp : FetchResp (AccountDataBody τ φ)) (b : AccountDataBody τ φ)
    (hid : Js.truthyStr accountId = true) (hall : accountId ≠ some "ALL")
    (hok : respOk resp.status = true) (hb : resp.body = .ok b) :
    (dataGET accountId (.ok resp)).status = 200 ∧
    (dataGET accountId (.ok resp)).tradesData = some (b.trades_by_symbol.getD []) ∧
    (dataGET accountId (.ok resp)).forexData = some (b.forex_data.getD []) ∧
    ∃ out, (dataGET accountId (.ok resp)).summaryStats = some out ∧
      out.total_trades = (b.summary_stats.getD emptySummaryStats).total_trades ∧
      out.total_wins = (b.summary_stats.getD emptySummaryStats).total_wins ∧
      out.total_losses = (b.summary_stats.getD emptySummaryStats).total_losses ∧
      out.total_pnl = (b.summary_stats.getD emptySummaryStats).total_pnl ∧
      out.total_pairs = some ((b.trades_by_symbol.getD []).length : ℚ) ∧
      out.overall_win_rate =
        (if Js.truthyNum (b.summary_stats.getD emptySummaryStats).total_trades then
          Js.mul (Js.div (b.summary_stats.getD emptySummaryStats).total_wins
            (b.summary_stats.getD emptySummaryStats).total_trades) 100
        else some 0) := by
  have hcond : ¬ (¬ Js.truthyStr accountId ∨ accountId = some "ALL") := by
    push_neg
    exact ⟨by simp [hid], hall⟩
  have hok' : ¬ ¬ respOk resp.status := by simp [hok]
  unfold dataGET
  rw [if_neg hcond]
  simp only [hb]
  rw [if_neg hok']
  exact ⟨rfl, rfl, rfl, _, rfl, rfl, rfl, rfl, rfl, rfl, rfl⟩

/-- Witness for the amended C3 at a concrete upstream response. -/
theorem dataGET_spec_witness :
    (dataGET (τ := Unit) (φ := Unit) (some "123")
        (.ok ⟨200, .ok ⟨some ⟨some 2, some 1, none, none, none, none⟩,
          some [("EURUSD", ())], none⟩⟩)).status = 200 ∧
    (dataGET (τ := Unit) (φ := Unit) (some "123")
        (.ok ⟨200, .ok ⟨some ⟨some 2, some 1, none, none, none, none⟩,
          some [("EURUSD", ())], none⟩⟩)).tradesData = some [("EURUSD", ())] := by
  obtain ⟨h1, h2, h3, h4⟩ :=
    dataGET_spec (τ := Unit) (φ := Unit) (some "123")
      ⟨200, .ok ⟨some ⟨some 2, some 1, none, none, none, none⟩, some [("EURUSD", ())], none⟩⟩
      ⟨some ⟨some 2, some 1, none, none, none, none⟩, some [("EURUSD", ())], none⟩
      rfl (by simp) rfl rfl
  exact ⟨h1, by simpa using h2⟩

/-- The `parseInt` retry of the single-account branch is a no-op: the guard
`numId.toString() === accountId` forces the second lookup to use the same
key, so `lookupAccount` coincides with a plain lookup. -/
theorem lookupAccount_eq {τ φ π ι : Type} (accounts : List (String × AccountDoc τ φ π ι))
    (accountId : String) : lookupAccount accounts accountId = accounts.lookup accountId := by
  unfold lookupAccount
  rcases h : accounts.lookup accountId with _ | d
  · simp only
    cases accountId.toInt? with
    | none => rfl
    | some n =>
      simp only
      split <;> rfl
  · rfl

theorem fsCollectDocs_error_status {τ φ π ι : Type} (env : FsEnv τ φ π ι)
    (r : FsDataResponse τ φ π ι) (h : fsCollectDocs env = .error r) :
    r.status = 200 ∨ r.status = 500 := by
  unfold fsCollectDocs at h
  split at h
  · split at h
    · cases h
      exact Or.inl rfl
    · split at h
      · cases h
        exact Or.inl rfl
      · cases h
  · split at h
    · cases h
      exact Or.inr rfl
    · cases h

/-- Claim C10: the Firestore revision of `GET /api/data` never answers 404
for missing data; a missing account document, an account without a
`summary/latest` document, and an all-accounts query in which no account has
summary data each yield HTTP 200 with `summaryStats: null`, empty
`tradesData` and empty `forexData`. -/
theorem dataGETFirestore_missing_spec {τ φ π ι : Type} (env : FsEnv τ φ π ι) :
    (dataGETFirestore env).status ≠ 404 ∧
    (∀ id, env.accountId = some id → id ≠ "" → id ≠ "ALL" → env.dbInit = .ok () →
      lookupAccount env.accounts id = none →
      dataGETFirestore env =
        ⟨200, none, none, none, [], [], some "Account document not found"⟩) ∧
    (∀ id doc, env.accountId = some id → id ≠ "" → id ≠ "ALL" → env.dbInit = .ok () →
      lookupAccount env.accounts id = some doc → doc.summaryLatest = none →
      dataGETFirestore env =
        ⟨200, none, none, none, [], [], some "Account exists but no summary data"⟩) ∧
    (¬ (Js.truthyStr env.accountId = true ∧ env.accountId ≠ some "ALL") →
      env.dbInit = .ok () → env.allFetch = .ok () →
      (∀ kv ∈ env.accounts, kv.2.summaryLatest = none) →
      dataGETFirestore env = ⟨200, none, none, none, [], [], none⟩) := by
  refine ⟨?_, ?_, ?_, ?_⟩
  · unfold dataGETFirestore
    rcases hdb : env.dbInit with e | u
    · simp
    · rcases hcol : fsCollectDocs env with r | docs
      · simp only
        rcases fsCollectDocs_error_status env r hcol with h | h <;> simp [h]
      · simp only
        split <;> simp
  · intro id hid hne hall hdb hlook
    have hcond : (Js.truthyStr env.accountId = true ∧ env.accountId ≠ some "ALL") := by
      constructor
      · simp [hid, Js.truthyStr, hne]
      · simp [hid, hall]
    have hcol : fsCollectDocs env =
        .error ⟨200, none, none, none, [], [], some "Account document not found"⟩ := by
      unfold fsCollectDocs
      rw [if_pos (by exact_mod_cast hcond)]
      rw [hid]
      simp only [Option.getD_some]
      rw [hlook]
    unfold dataGETFirestore
    rw [hdb, hcol]
  · intro id doc hid hne hall hdb hlook hsum
    have hcond : (Js.truthyStr env.accountId = true ∧ env.accountId ≠ some "ALL") := by
      constructor
      · simp [hid, Js.truthyStr, hne]
      · simp [hid, hall]
    have hcol : fsCollectDocs env =
        .error ⟨200, none, none, none, [], [], some "Account exists but no summary data"⟩ := by
      unfold fsCollectDocs
      rw [if_pos (by exact_mod_cast hcond)]
      rw [hid]
      simp only [Option.getD_some]
      rw [hlook]
      simp only
      rw [hsum]
    unfold dataGETFirestore
    rw [hdb, hcol]
  · intro hcond hdb hall hempty
    have hcol : fsCollectDocs env = .ok [] := by
      unfold fsCollectDocs
      rw [if_neg (by exact_mod_cast hcond)]
      rw [hall]
      simp only [Except.ok.injEq]
      rw [List.filter_eq_nil_iff]
      intro kv hkv
      simp [hempty kv hkv]
    unfold dataGETFirestore
    rw [hdb, hcol]
    simp

/-- Witness for C10: requesting an account absent from Firestore answers 200
with null summary and empty data maps. -/
theorem dataGETFirestore_missing_spec_witness :
    dataGETFirestore (τ := Unit) (φ := Unit) (π := Unit) (ι := Unit)
        ⟨some "acct", .ok (), [], .ok (), "2024-01-01T00:00:00.000Z"⟩ =
      ⟨200, none, none, none, [], [], some "Account document not found"⟩ := by
  exact (dataGETFirestore_missing_spec
      ⟨some "acct", .ok (), [], .ok (), "2024-01-01T00:00:00.000Z"⟩).2.1
    "acct" rfl (by decide) (by decide) rfl (by rw [lookupAccount_eq]; rfl)

end DataRoute

namespace Sw

/-- Counterexample to C1 as stated: the handler does not always return
without showing when a currently displayed notification already carries the
payload's tag — when `getNotifications` itself fails, the `.catch` fallback
(sw.js lines 176-201) shows the notification anyway. -/
theorem onBackgroundMessage_counterexample :
    ¬ (∀ (flag : Bool) (p : BgPayload) (genTag : String)
        (displayed : List Notif) (query : Except Unit (List Notif)) (now : ℤ),
        (query = .ok displayed ∨ query = .error ()) →
        (flag = true ∨ displayed.any (fun n => n.tag = bgTag p genTag) = true) →
        (onBackgroundMessage flag p genTag query now).shown = false) := by
  intro h
  have hx := h false ⟨some "t", some "A", some "B"⟩ "gen"
      [⟨"t", "A", "B", some 0⟩] (.error ()) 0 (Or.inr rfl)
      (Or.inr (by decide))
  exact absurd hx (by decide)

/-- Claim C1 (amended): on a successful `getNotifications` query the
background handler suppresses the notification exactly when the
`notificationShown` flag is set, a displayed notification already carries the
payload's tag, or a notification with the same title and body was displayed
within the last 2000 ms; when it shows, it sets the flag.  When the query
fails, the flag check still blocks, but otherwise the fallback shows the
notification (and sets the flag) regardless of displayed duplicates. -/
theorem onBackgroundMessage_spec (flag : Bool) (p : BgPayload) (genTag : String)
    (displayed : List Notif) (now : ℤ) :
    ((onBackgroundMessage flag p genTag (.ok displayed) now).shown = false ↔
      flag = true ∨
      (∃ n ∈ displayed, n.tag = bgTag p genTag) ∨
      (∃ n ∈ displayed, now - n.timestamp.getD 0 < 2000 ∧
        n.title = Js.orStr p.title "Background Message Title" ∧
        n.body = Js.orStr p.body "Background Message body.")) ∧
    ((onBackgroundMessage flag p genTag (.ok displayed) now).shown = true →
      (onBackgroundMessage flag p genTag (.ok displayed) now).flagSet = true) ∧
    (flag = true → (onBackgroundMessage flag p genTag (.error ()) now).shown = false) ∧
    (flag = false → (onBackgroundMessage flag p genTag (.error ()) now).shown = true ∧
      (onBackgroundMessage flag p genTag (.error ()) now).flagSet = true) := by
  unfold onBackgroundMessage
  by_cases hf : flag = true
  · simp [hf]
  · simp only [hf, if_false, Bool.false_eq_true, false_or]
    refine ⟨?_, ?_, ?_, ?_⟩
    · split
      · rename_i h1
        simp only [List.length_pos, ne_eq, List.filter_eq_nil_iff, not_forall] at h1
        simp only [true_iff]
        left
        obtain ⟨n, hn, hp⟩ := h1
        exact ⟨n, hn, by simpa using hp⟩
      · rename_i h1
        split
        · rename_i h2
          simp only [List.length_pos, ne_eq, List.filter_eq_nil_iff, not_forall] at h2
          simp only [true_iff]
          right
          obtain ⟨n, hn, hp⟩ := h2
          refine ⟨n, hn, ?_⟩
          simpa using of_decide_eq_true (by simpa using hp)
        · rename_i h2
          simp only [List.length_pos, ne_eq, List.filter_eq_nil_iff, not_forall] at h1 h2
          push_neg at h1 h2
          simp only [Bool.true_eq_false, false_iff, not_or]
          refine ⟨?_, ?_⟩
          · rintro ⟨n, hn, hp⟩
            have := h1 n hn
            simp [hp] at this
          · rintro ⟨n, hn, hp⟩
            have := h2 n hn
            simp only [ne_eq, decide_eq_true_eq] at this
            exact this hp
    · split
      · simp
      · split <;> simp
    · simp [hf]
    · simp

/-- Witness for the amended C1: with the flag clear and no displayed
notifications the handler shows the notification and sets the flag. -/
theorem onBackgroundMessage_spec_witness :
    (onBackgroundMessage false ⟨some "t", some "A", some "B"⟩ "gen" (.ok []) 5).shown = true ∧
    (onBackgroundMessage false ⟨some "t", some "A", some "B"⟩ "gen" (.ok []) 5).flagSet = true := by
  have h := onBackgroundMessage_spec false ⟨some "t", some "A", some "B"⟩ "gen" [] 5
  have hsh : (onBackgroundMessage false ⟨some "t", some "A", some "B"⟩ "gen"
      (.ok []) 5).shown = true := by
    cases hx : (onBackgroundMessage false ⟨some "t", some "A", some "B"⟩ "gen"
        (.ok []) 5).shown
    · exfalso
      have := h.1.mp hx
      simp at this
    · rfl
  exact ⟨hsh, h.2.1 hsh⟩

end Sw

namespace Fg

/-- Claim C2: for every foreground message the handler derives the
deduplication key `notif-shown-<tag>` from the payload's tag, first prunes
from the `recent-notifications` map every entry whose timestamp is older than
the 2000 ms `NOTIFICATION_COOLDOWN`, then returns without further processing
(and without writing back) when the key is still present in the pruned map,
and otherwise records the key with the current time back into localStorage
before continuing.  `hpos` states that stored timestamps are positive (they
are values of `Date.now()`). -/
theorem onMessageDedup_spec (dataTag : Option String) (genTag : String)
    (stored : String → Option ℤ) (now : ℤ)
    (hpos : ∀ k v, stored k = some v → 0 < v) :
    (∀ v, stored ("notif-shown-" ++ Js.orStr dataTag genTag) = some v →
      ¬ now - v > NOTIFICATION_COOLDOWN →
      onMessageDedup dataTag genTag stored now = (false, stored)) ∧
    ((∀ v, stored ("notif-shown-" ++ Js.orStr dataTag genTag) = some v →
        now - v > NOTIFICATION_COOLDOWN) →
      (onMessageDedup dataTag genTag stored now).1 = true ∧
      (onMessageDedup dataTag genTag stored now).2
        ("notif-shown-" ++ Js.orStr dataTag genTag) = some now ∧
      (∀ k, k ≠ "notif-shown-" ++ Js.orStr dataTag genTag →
        (onMessageDedup dataTag genTag stored now).2 k =
          match stored k with
          | some v => if now - v > NOTIFICATION_COOLDOWN then none else some v
          | none => none)) := by
  constructor
  · intro v hv hle
    have hvpos := hpos _ _ hv
    simp only [onMessageDedup]
    rw [hv]
    simp only [if_neg hle]
    rw [if_pos (by simp [truthyTs]; omega)]
  · intro hold
    have hcl : (match stored ("notif-shown-" ++ Js.orStr dataTag genTag) with
        | some v => if now - v > NOTIFICATION_COOLDOWN then none else some v
        | none => (none : Option ℤ)) = none := by
      rcases hsk : stored ("notif-shown-" ++ Js.orStr dataTag genTag) with _ | v
      · rfl
      · simp only
        rw [if_pos (hold v hsk)]
    refine ⟨?_, ?_, ?_⟩
    · simp only [onMessageDedup]
      rw [hcl]
      rw [if_neg (by simp [truthyTs])]
    · simp only [onMessageDedup]
      rw [hcl]
      rw [if_neg (by simp [truthyTs])]
      simp
    · intro k hk
      simp only [onMessageDedup]
      rw [hcl]
      rw [if_neg (by simp [truthyTs])]
      simp only [if_neg hk]

/-- Witness for C2: an entry recorded 4900 ms ago is pruned, the handler
continues and re-records the key at the current time. -/
theorem onMessageDedup_spec_witness :
    (onMessageDedup (some "x") "gen"
      (fun k => if k = "notif-shown-x" then some 100 else none) 5000).1 = true ∧
    (onMessageDedup (some "x") "gen"
      (fun k => if k = "notif-shown-x" then some 100 else none) 5000).2
        "notif-shown-x" = some 5000 := by
  have h := (onMessageDedup_spec (some "x") "gen"
      (fun k => if k = "notif-shown-x" then some 100 else none) 5000
      (by
        intro k v hv
        simp only at hv
        by_cases hk : k = "notif-shown-x"
        · rw [if_pos hk] at hv
          injection hv with hv
          omega
        · rw [if_neg hk] at hv
          cases hv)).2
    (by
      intro v hv
      have hkey : ("notif-shown-" ++ Js.orStr (some "x") "gen") = "notif-shown-x" := rfl
      rw [hkey] at hv
      simp at hv
      simp only [NOTIFICATION_COOLDOWN]
      omega)
  exact ⟨h.1, by simpa using h.2.1⟩

end Fg

namespace Fg

/-- Counterexample to C9 as stated: token acquisition is not attempted
exactly once per user action — when strategy 1 fails the handler retries
`getToken` (strategies 2 and 3, NotificationHandler.tsx lines 250-275). -/
theorem getTokenAttempts_counterexample :
    ¬ (∀ r1 r2 r3 : Except String String, (getTokenAttempts r1 r2 r3).2 = 1) := by
  intro h
  have hx := h (.error "registration-failed") (.ok "tok") (.ok "tok")
  simp [getTokenAttempts] at hx

/-- Claim C9 (amended): within one initialization, `getToken` is attempted up
to three times, stopping at the first success (a single attempt happens
exactly when strategy 1 succeeds; after two failures the chain's outcome is
strategy 3's); the auto-refresh tick invokes the refresh function exactly
once per scheduled interval and swallows failures, leaving `lastRefresh`
unchanged, so a failed refresh is only re-attempted at the next tick. -/
theorem getTokenAttempts_spec (r1 r2 r3 : Except String String)
    (res : Except String Unit) (lastRefresh now : ℤ) :
    (getTokenAttempts r1 r2 r3).2 ≤ 3 ∧
    ((getTokenAttempts r1 r2 r3).2 = 1 ↔ ∃ t, r1 = .ok t) ∧
    (∀ t, r1 = .ok t → getTokenAttempts r1 r2 r3 = (.ok t, 1)) ∧
    (∀ e1 t, r1 = .error e1 → r2 = .ok t → getTokenAttempts r1 r2 r3 = (.ok t, 2)) ∧
    (∀ e1 e2, r1 = .error e1 → r2 = .error e2 → getTokenAttempts r1 r2 r3 = (r3, 3)) ∧
    (autoRefreshTick res lastRefresh now).2 = 1 ∧
    (∀ e, res = .error e → (autoRefreshTick res lastRefresh now).1 = lastRefresh) ∧
    (res = .ok () → (autoRefreshTick res lastRefresh now).1 = now) := by
  refine ⟨?_, ?_, ?_, ?_, ?_, ?_, ?_, ?_⟩ <;>
    rcases r1 with e1 | t1 <;> rcases r2 with e2 | t2 <;> rcases r3 with e3 | t3 <;>
      rcases res with er | u <;> simp [getTokenAttempts, autoRefreshTick]

/-- Witness for the amended C9: with strategy 1 failing and strategy 2
succeeding the chain performs two attempts, and a failed auto-refresh tick
leaves the last-refresh time unchanged after its single invocation. -/
theorem getTokenAttempts_spec_witness :
    getTokenAttempts (.error "e1") (.ok "tok") (.ok "tok") = (.ok "tok", 2) ∧
    (autoRefreshTick (.error "boom") 10 20).1 = 10 ∧
    (autoRefreshTick (.error "boom") 10 20).2 = 1 := by
  obtain ⟨-, -, -, h4, -, h6, h7, -⟩ :=
    getTokenAttempts_spec (.error "e1") (.ok "tok") (.ok "tok") (.error "boom") 10 20
  exact ⟨h4 "e1" "tok" rfl rfl, h7 "boom" rfl, h6⟩

end Fg

namespace Cli

/-- Counterexample to C8 as stated: `runAccountManagerCommand` does not throw
only on empty or unparseable trimmed stdout — when the exec itself rejects
(the CLI exits non-zero), the rejection propagates as a throw even though the
captured trimmed stdout is nonempty and parses. -/
theorem runAccountManagerCommand_counterexample :
    ¬ (∀ (parse : String → Option ℕ) (execResult : Except ExecFailure (String × String)),
        (∃ err, runAccountManagerCommand parse execResult = .error err) ↔
          (Js.trim (execStdout execResult) = "" ∨
            parse (Js.trim (execStdout execResult)) = none)) := by
  intro h
  have hx := (h (fun _ => some 7)
      (.error ⟨"Command failed: exit code 1", "true", ""⟩)).mp
      ⟨.execFailed ⟨"Command failed: exit code 1", "true", ""⟩, rfl⟩
  rcases hx with h1 | h1
  · exact absurd h1 (by decide)
  · simp [execStdout] at h1

/-- Claim C8 (amended): for a resolved exec, `runAccountManagerCommand`
throws exactly when the trimmed stdout is empty (message
'No output from command') or fails to parse (message 'Failed to parse
output: ' followed by the first 200 characters of the output); otherwise it
returns the parsed trimmed stdout, and stderr never affects the result.
When the exec itself rejects, the rejection propagates as a throw. -/
theorem runAccountManagerCommand_spec {α : Type} (parse : String → Option α)
    (stdout stderr stderr2 : String) (e : ExecFailure) :
    runAccountManagerCommand parse (.ok (stdout, stderr)) =
      runAccountManagerCommand parse (.ok (stdout, stderr2)) ∧
    (Js.trim stdout = "" →
      runAccountManagerCommand parse (.ok (stdout, stderr)) = .error .noOutput ∧
      CliError.noOutput.message = "No output from command") ∧
    (∀ v, Js.trim stdout ≠ "" → parse (Js.trim stdout) = some v →
      runAccountManagerCommand parse (.ok (stdout, stderr)) = .ok v) ∧
    (Js.trim stdout ≠ "" → parse (Js.trim stdout) = none →
      runAccountManagerCommand parse (.ok (stdout, stderr)) =
        .error (.parseFailed (Js.trim stdout)) ∧
      (CliError.parseFailed (Js.trim stdout)).message =
        "Failed to parse output: " ++ (Js.trim stdout).take 200) ∧
    runAccountManagerCommand parse (.error e) = .error (.execFailed e) := by
  refine ⟨rfl, ?_, ?_, ?_, rfl⟩
  · intro hempty
    refine ⟨?_, rfl⟩
    simp only [runAccountManagerCommand]
    rw [if_pos hempty]
  · intro v hne hp
    simp only [runAccountManagerCommand]
    rw [if_neg hne, hp]
  · intro hne hp
    refine ⟨?_, rfl⟩
    simp only [runAccountManagerCommand]
    rw [if_neg hne, hp]

/-- Witness for the amended C8: stdout `true` with noisy stderr parses and
is returned; the stderr content is irrelevant. -/
theorem runAccountManagerCommand_spec_witness :
    runAccountManagerCommand (fun s => if s = "true" then some 42 else none)
      (.ok ("true", "WARNING: conda noise")) = .ok 42 := by
  exact (runAccountManagerCommand_spec (fun s => if s = "true" then some 42 else none)
      "true" "WARNING: conda noise" "" ⟨"", "", ""⟩).2.2.1 42 (by decide) (by decide)

end Cli

namespace Routes

/-- Claim C6: `POST /api/register-token` forwards to the notification service
exactly when the request body holds a truthy token; with no truthy token it
answers 400 with error 'Device token is required' without contacting the
service; and when the forwarding fetch itself throws it answers 503 with
`success: false` and error 'Notification service unavailable'. -/
theorem registerTokenPOST_spec (body : Except String RegisterBody)
    (fetchRes : Except String (FetchResp NotifServiceResult)) :
    ((registerTokenPOST body fetchRes).forwarded = true ↔
      ∃ b, body = .ok b ∧ Js.truthyStr b.token = true) ∧
    (∀ b, body = .ok b → Js.truthyStr b.token = false →
      (registerTokenPOST body fetchRes).status = 400 ∧
      (registerTokenPOST body fetchRes).error = some "Device token is required" ∧
      (registerTokenPOST body fetchRes).forwarded = false) ∧
    (∀ b e, body = .ok b → Js.truthyStr b.token = true → fetchRes = .error e →
      (registerTokenPOST body fetchRes).status = 503 ∧
      (registerTokenPOST body fetchRes).success = some false ∧
      (registerTokenPOST body fetchRes).error = some "Notification service unavailable") := by
  refine ⟨?_, ?_, ?_⟩
  · rcases body with e | b
    · simp [registerTokenPOST]
    · by_cases ht : Js.truthyStr b.token
      · rcases fetchRes with fe | resp
        · simp [registerTokenPOST, ht]
        · rcases hb : resp.body with je | result
          · simp [registerTokenPOST, ht, hb]
          · by_cases hok : (respOk resp.status ∧ result.success : Prop) <;>
              simp [registerTokenPOST, ht, hb, hok]
      · simp [registerTokenPOST, ht]
  · intro b hb htok
    subst hb
    simp [registerTokenPOST, htok]
  · intro b e hb htok hf
    subst hb
    subst hf
    simp [registerTokenPOST, htok]

/-- Witness for C6: a request with a token whose forwarding fetch rejects is
answered 503 'Notification service unavailable', and a request without a
token is answered 400 without forwarding. -/
theorem registerTokenPOST_spec_witness :
    (registerTokenPOST (.ok ⟨some "tok", none, none, none, none⟩)
      (.error "ECONNREFUSED")).status = 503 ∧
    (registerTokenPOST (.ok ⟨none, none, none, none, none⟩)
      (.error "ECONNREFUSED")).status = 400 ∧
    (registerTokenPOST (.ok ⟨none, none, none, none, none⟩)
      (.error "ECONNREFUSED")).forwarded = false := by
  refine ⟨?_, ?_, ?_⟩
  · exact ((registerTokenPOST_spec (.ok ⟨some "tok", none, none, none, none⟩)
      (.error "ECONNREFUSED")).2.2 _ "ECONNREFUSED" rfl rfl rfl).1
  · exact ((registerTokenPOST_spec (.ok ⟨none, none, none, none, none⟩)
      (.error "ECONNREFUSED")).2.1 _ rfl rfl).1
  · exact ((registerTokenPOST_spec (.ok ⟨none, none, none, none, none⟩)
      (.error "ECONNREFUSED")).2.1 _ rfl rfl).2.2

/-- Claim C7: `POST /api/accounts` runs the CLI `validate` command before
`add`: when validation reports the id invalid or already existing, or
validation itself throws, the route answers 400 and `add` is never executed;
`add` runs only after validation passes, and answers 201 with the created
account on success. -/
theorem accountsPOST_spec (body : Except String PostBody)
    (validateRes : Except Cli.CliError ValidationResult)
    (addRes : Except Cli.CliError AddResult) :
    (∀ b e, body = .ok b → Js.truthyStr b.account_id = true → validateRes = .error e →
      (accountsPOST body validateRes addRes).status = 400 ∧
      (accountsPOST body validateRes addRes).addExecuted = false) ∧
    (∀ b v, body = .ok b → Js.truthyStr b.account_id = true → validateRes = .ok v →
      (v.valid = false ∨ v.existing = true) →
      (accountsPOST body validateRes addRes).status = 400 ∧
      (accountsPOST body validateRes addRes).addExecuted = false) ∧
    ((accountsPOST body validateRes addRes).addExecuted = true →
      ∃ b v, body = .ok b ∧ Js.truthyStr b.account_id = true ∧
        validateRes = .ok v ∧ v.valid = true ∧ v.existing = false) ∧
    (∀ b v r, body = .ok b → Js.truthyStr b.account_id = true → validateRes = .ok v →
      v.valid = true → v.existing = false → addRes = .ok r → r.success = true →
      (accountsPOST body validateRes addRes).status = 201 ∧
      (accountsPOST body validateRes addRes).account = r.account ∧
      (accountsPOST body validateRes addRes).addExecuted = true) := by
  refine ⟨?_, ?_, ?_, ?_⟩
  · intro b e hb ht hv
    subst hb
    subst hv
    simp [accountsPOST, ht]
  · intro b v hb ht hv hbad
    subst hb
    subst hv
    rcases v with ⟨valid, existing, verr⟩
    cases valid <;> cases existing <;> simp_all [accountsPOST, ht]
  · intro hexec
    rcases body with e | b
    · simp [accountsPOST] at hexec
    · by_cases ht : Js.truthyStr b.account_id
      · rcases validateRes with e | v
        · simp [accountsPOST, ht] at hexec
        · rcases v with ⟨valid, existing, verr⟩
          cases valid <;> cases existing
          · simp [accountsPOST, ht] at hexec
          · simp [accountsPOST, ht] at hexec
          · exact ⟨b, ⟨true, false, verr⟩, rfl, ht, rfl, rfl, rfl⟩
          · simp [accountsPOST, ht] at hexec
      · simp only [Bool.not_eq_true] at ht
        simp [accountsPOST, ht] at hexec
  · intro b v r hb ht hv hvalid hex ha hs
    subst hb
    subst hv
    subst ha
    simp [accountsPOST, ht, hvalid, hex, hs]

/-- Witness for C7: a validation verdict `exists: true` blocks the add with a
400, and a passing validation followed by a successful add answers 201. -/
theorem accountsPOST_spec_witness :
    (accountsPOST (.ok ⟨some "42", none⟩) (.ok ⟨true, true, none⟩)
      (.ok ⟨true, some ⟨"42", "demo", true⟩, some true, none⟩)).status = 400 ∧
    (accountsPOST (.ok ⟨some "42", none⟩) (.ok ⟨true, true, none⟩)
      (.ok ⟨true, some ⟨"42", "demo", true⟩, some true, none⟩)).addExecuted = false ∧
    (accountsPOST (.ok ⟨some "42", none⟩) (.ok ⟨true, false, none⟩)
      (.ok ⟨true, some ⟨"42", "demo", true⟩, some true, none⟩)).status = 201 := by
  refine ⟨?_, ?_, ?_⟩
  · exact ((accountsPOST_spec (.ok ⟨some "42", none⟩) (.ok ⟨true, true, none⟩)
      (.ok ⟨true, some ⟨"42", "demo", true⟩, some true, none⟩)).2.1 _ _ rfl rfl rfl
      (Or.inr rfl)).1
  · exact ((accountsPOST_spec (.ok ⟨some "42", none⟩) (.ok ⟨true, true, none⟩)
      (.ok ⟨true, some ⟨"42", "demo", true⟩, some true, none⟩)).2.1 _ _ rfl rfl rfl
      (Or.inr rfl)).2
  · exact ((accountsPOST_spec (.ok ⟨some "42", none⟩) (.ok ⟨true, false, none⟩)
      (.ok ⟨true, some ⟨"42", "demo", true⟩, some true, none⟩)).2.2.2 _ _ _ rfl rfl rfl
      rfl rfl rfl rfl).1

end Routes

namespace Routes

/-- Counterexample to C5 as stated: when the notification service answers
HTTP 200 with `success: false`, `POST /api/register-token` mirrors the
upstream status and returns its user-facing error message with status 200 —
not a 4xx/5xx code. -/
theorem routes_error_status_counterexample :
    ¬ (∀ (body : Except String RegisterBody)
        (fetchRes : Except String (FetchResp NotifServiceResult)),
        (registerTokenPOST body fetchRes).error ≠ none →
        400 ≤ (registerTokenPOST body fetchRes).status ∧
          (registerTokenPOST body fetchRes).status ≤ 599) := by
  intro h
  have hx := h (.ok ⟨some "tok", none, none, none, none⟩)
      (.ok ⟨200, .ok ⟨false, some "invalid app id", none⟩⟩) (by decide)
  exact absurd hx.1 (by decide)

/-- Claim C5 (amended): every API route handler wraps its body in try/catch
and never propagates an exception; every caught exception (malformed JSON
body, CLI failure, rejected upstream fetch or unreadable upstream body, or a
failed Firestore read) is mapped to a JSON response with a user-facing error
message and a 4xx/5xx status.  Error responses that mirror an upstream HTTP
status (register-token, send-notification, the data proxy on a non-OK
upstream response) carry the upstream's status instead, which can lie
outside 4xx/5xx. -/
theorem routes_catch_spec {τ φ π ι : Type}
    (rb : Except String RegisterBody) (rf : Except String (FetchResp NotifServiceResult))
    (sb : Except String SendBody) (sf : Except String (FetchResp NotifServiceResult))
    (lres : Except Cli.CliError ListResult)
    (pb : Except String PostBody) (vres : Except Cli.CliError ValidationResult)
    (ares : Except Cli.CliError AddResult)
    (did : Option String) (dres : Except Cli.CliError OpResult)
    (uid : Option String) (ub : Except String PatchBody)
    (ures : Except Cli.CliError OpResult)
    (fb : Except String (Option String)) (fres : Except Cli.CliError FetchDataResult)
    (aid : Option String)
    (afetch : Except String (DataRoute.FetchResp (DataRoute.AccountDataBody τ φ)))
    (env : DataRoute.FsEnv τ φ π ι) :
    (∀ e, rb = .error e →
      (registerTokenPOST rb rf).status = 500 ∧ (registerTokenPOST rb rf).error ≠ none) ∧
    (∀ b e, rb = .ok b → Js.truthyStr b.token = true → rf = .error e →
      (registerTokenPOST rb rf).status = 503 ∧ (registerTokenPOST rb rf).error ≠ none) ∧
    (∀ b resp e, rb = .ok b → Js.truthyStr b.token = true → rf = .ok resp →
      resp.body = .error e →
      (registerTokenPOST rb rf).status = 503 ∧ (registerTokenPOST rb rf).error ≠ none) ∧
    (∀ e, sb = .error e →
      (sendNotificationPOST sb sf).status = 500 ∧
      (sendNotificationPOST sb sf).error ≠ none) ∧
    (∀ b e, sb = .ok b → Js.truthyStr b.token = true → sf = .error e →
      (sendNotificationPOST sb sf).status = 503 ∧
      (sendNotificationPOST sb sf).error ≠ none) ∧
    (∀ b resp e, sb = .ok b → Js.truthyStr b.token = true → sf = .ok resp →
      resp.body = .error e →
      (sendNotificationPOST sb sf).status = 503 ∧
      (sendNotificationPOST sb sf).error ≠ none) ∧
    (∀ e, lres = .error e →
      (accountsGET lres).status = 500 ∧ (accountsGET lres).error ≠ none) ∧
    (∀ e, pb = .error e →
      (accountsPOST pb vres ares).status = 500 ∧ (accountsPOST pb vres ares).error ≠ none) ∧
    (∀ b e, pb = .ok b → Js.truthyStr b.account_id = true → vres = .error e →
      (accountsPOST pb vres ares).status = 400 ∧ (accountsPOST pb vres ares).error ≠ none) ∧
    (∀ b v e, pb = .ok b → Js.truthyStr b.account_id = true → vres = .ok v →
      v.valid = true → v.existing = false → ares = .error e →
      (accountsPOST pb vres ares).status = 500 ∧ (accountsPOST pb vres ares).error ≠ none) ∧
    (∀ e, Js.truthyStr did = true → dres = .error e →
      (accountsDELETE did dres).status = 500 ∧ (accountsDELETE did dres).error ≠ none) ∧
    (∀ e, ub = .error e →
      (accountsPATCH uid ub ures).status = 500 ∧ (accountsPATCH uid ub ures).error ≠ none) ∧
    (∀ b e, ub = .ok b → Js.truthyStr uid = true → ¬ (b.name = none ∧ b.enabled = none) →
      ures = .error e →
      (accountsPATCH uid ub ures).status = 500 ∧ (accountsPATCH uid ub ures).error ≠ none) ∧
    (∀ e, fres = .error e →
      (fetchDataPOST fb fres).status = 500 ∧ (fetchDataPOST fb fres).error ≠ none) ∧
    (∀ e, Js.truthyStr aid = true → aid ≠ some "ALL" → afetch = .error e →
      (DataRoute.dataGET aid afetch).status = 500 ∧
      (DataRoute.dataGET aid afetch).error ≠ none) ∧
    (∀ resp e, Js.truthyStr aid = true → aid ≠ some "ALL" → afetch = .ok resp →
      DataRoute.respOk resp.status = true → resp.body = .error e →
      (DataRoute.dataGET aid afetch).status = 500 ∧
      (DataRoute.dataGET aid afetch).error ≠ none) ∧
    (∀ e, env.dbInit = .error e →
      (DataRoute.dataGETFirestore env).status = 500 ∧
      (DataRoute.dataGETFirestore env).error ≠ none) ∧
    (∀ e, ¬ (Js.truthyStr env.accountId = true ∧ env.accountId ≠ some "ALL") →
      env.dbInit = .ok () → env.allFetch = .error e →
      (DataRoute.dataGETFirestore env).status = 500 ∧
      (DataRoute.dataGETFirestore env).error ≠ none) := by
  refine ⟨?_, ?_, ?_, ?_, ?_, ?_, ?_, ?_, ?_, ?_, ?_, ?_, ?_, ?_, ?_, ?_, ?_, ?_⟩
  · intro e he
    subst he
    simp [registerTokenPOST]
  · intro b e hb ht hf
    subst hb
    subst hf
    simp [registerTokenPOST, ht]
  · intro b resp e hb ht hr hbody
    subst hb
    subst hr
    simp [registerTokenPOST, ht, hbody]
  · intro e he
    subst he
    simp [sendNotificationPOST]
  · intro b e hb ht hf
    subst hb
    subst hf
    simp [sendNotificationPOST, ht]
  · intro b resp e hb ht hr hbody
    subst hb
    subst hr
    simp [sendNotificationPOST, ht, hbody]
  · intro e he
    subst he
    simp [accountsGET]
  · intro e he
    subst he
    simp [accountsPOST]
  · intro b e hb ht hv
    subst hb
    subst hv
    simp [accountsPOST, ht]
  · intro b v e hb ht hv hvalid hex ha
    subst hb
    subst hv
    subst ha
    simp [accountsPOST, ht, hvalid, hex]
  · intro e ht hd
    subst hd
    simp [accountsDELETE, ht]
  · intro e he
    subst he
    simp [accountsPATCH]
  · intro b e hb ht hupd hu
    subst hb
    subst hu
    simp only [accountsPATCH]
    rw [if_neg (by simp [ht])]
    rw [if_neg hupd]
    simp
  · intro e he
    subst he
    simp [fetchDataPOST]
  · intro e ht hne hf
    subst hf
    simp only [DataRoute.dataGET]
    rw [if_neg (by
      push_neg
      exact ⟨by simp [ht], hne⟩)]
    simp
  · intro resp e ht hne hf hok hbody
    subst hf
    simp only [DataRoute.dataGET]
    rw [if_neg (by
      push_neg
      exact ⟨by simp [ht], hne⟩)]
    simp [hok, hbody]
  · intro e he
    simp [DataRoute.dataGETFirestore, he]
  · intro e hcond hdb hall
    have hcol : DataRoute.fsCollectDocs env =
        .error ⟨500, some "Failed to fetch accounts", some e, none, [], [], none⟩ := by
      unfold DataRoute.fsCollectDocs
      rw [if_neg (by exact_mod_cast hcond)]
      rw [hall]
    unfold DataRoute.dataGETFirestore
    rw [hdb, hcol]
    simp

/-- Witness for the amended C5: representative caught exceptions — a
malformed request body, CLI failures, and an unreadable notification-service
response body — map to 500 and 503 responses with error messages. -/
theorem routes_catch_spec_witness :
    (registerTokenPOST (.error "SyntaxError: Unexpected token")
      (.error "ECONNREFUSED")).status = 500 ∧
    (accountsGET (.error .noOutput)).status = 500 ∧
    (fetchDataPOST (.ok none) (.error .noOutput)).status = 500 ∧
    (sendNotificationPOST (.ok ⟨some "tok", none, none, none⟩)
      (.ok ⟨200, .error "Unexpected end of JSON input"⟩)).status = 503 := by
  obtain ⟨h1, -, -, -, -, -, h7, -, -, -, -, -, -, h14, -, -, -, -⟩ :=
    routes_catch_spec (τ := Unit) (φ := Unit) (π := Unit) (ι := Unit)
      (.error "SyntaxError: Unexpected token") (.error "ECONNREFUSED")
      (.ok ⟨none, none, none, none⟩) (.error "x")
      (.error .noOutput)
      (.ok ⟨none, none⟩) (.error .noOutput) (.error .noOutput)
      none (.error .noOutput)
      none (.ok ⟨none, none⟩) (.error .noOutput)
      (.ok none) (.error .noOutput)
      none (.error "x")
      ⟨none, .ok (), [], .ok (), "now"⟩
  obtain ⟨-, -, -, -, -, h6, -, -, -, -, -, -, -, -, -, -, -, -⟩ :=
    routes_catch_spec (τ := Unit) (φ := Unit) (π := Unit) (ι := Unit)
      (.error "SyntaxError: Unexpected token") (.error "ECONNREFUSED")
      (.ok ⟨some "tok", none, none, none⟩)
      (.ok ⟨200, .error "Unexpected end of JSON input"⟩)
      (.error .noOutput)
      (.ok ⟨none, none⟩) (.error .noOutput) (.error .noOutput)
      none (.error .noOutput)
      none (.ok ⟨none, none⟩) (.error .noOutput)
      (.ok none) (.error .noOutput)
      none (.error "x")
      ⟨none, .ok (), [], .ok (), "now"⟩
  exact ⟨(h1 "SyntaxError: Unexpected token" rfl).1, (h7 .noOutput rfl).1,
    (h14 .noOutput rfl).1,
    (h6 ⟨some "tok", none, none, none⟩ ⟨200, .error "Unexpected end of JSON input"⟩
      "Unexpected end of JSON input" rfl rfl rfl rfl).1⟩

end Routes
